import Mathlib

/-!
# FormPlay — verification of the TPS-report workflow and PDF overlay logic

Shallow embedding of the FormPlay repository:
* `src/shared/schema.ts` — the `TpsStatus` enumeration and the report/log records;
* `src/server/storage.ts` — `MemStorage` (reports map, logs map, id counters) and its
  operations `createTpsReport`, `getTpsReport`, `updateTpsReport`, `replicateTpsReport`,
  `createTpsLog`;
* `src/server/routes.ts` — the `PUT /api/tps-reports/:id` and
  `POST /api/tps-reports/:id/replicate` handlers, with e-mail/calendar side effects
  recorded as an explicit effect list;
* `src/client/src/lib/pdf.ts` — `extractFormFields` and the geometry portion of
  `createInteractiveFormElements` together with the canvas sizing of `renderPdfToCanvas`.

Clocks are passed explicitly: `now : Nat` stands for `new Date()` timestamps and
`today : String` for `new Date().toISOString().split('T')[0]`.
-/

namespace FormPlay

/- The five members of `enum TpsStatus` in `src/shared/schema.ts` (lines 97–103). -/
namespace TpsStatus

def DRAFT : String := "draft"

def PENDING_REVIEW : String := "pending_review"

def PENDING_APPROVAL : String := "pending_approval"

def COMPLETED : String := "completed"

def ABORTED : String := "aborted"

end TpsStatus

/-- The list of values of `enum TpsStatus` (`src/shared/schema.ts` lines 97–103). -/
def tpsStatusValues : List String :=
  [TpsStatus.DRAFT, TpsStatus.PENDING_REVIEW, TpsStatus.PENDING_APPROVAL,
   TpsStatus.COMPLETED, TpsStatus.ABORTED]

/-- The `emotional_state` object stored inside `form_data` (two fixed keys, cf.
`formData.emotional_state = { matt: '', mina: '' }` in `storage.ts`). -/
structure EmoState where
  matt : String
  mina : String
deriving DecidableEq, Repr

/-- Model of the open-ended `form_data` JSONB column: the `emotional_state` key is
singled out because `replicateTpsReport` branches on it; every other key/value pair
is carried opaquely in `rest`. -/
structure FormData where
  emotional_state : Option EmoState
  rest : List (String × String)
deriving DecidableEq, Repr

/-- A row of the `tps_reports` table (`src/shared/schema.ts` lines 24–44). -/
structure TpsReport where
  id : Nat
  created_at : Nat
  updated_at : Nat
  creator_id : Nat
  receiver_id : Nat
  status : String
  date : String
  time_start : String
  time_end : String
  location : String
  location_other : Option String
  sound : String
  form_data : FormData
  creator_notes : Option String
  receiver_notes : Option String
  creator_initials : Option String
  receiver_initials : Option String
  replicated_from_id : Option Nat
  pdf_path : Option String
deriving DecidableEq, Repr

/-- Model of `InsertTpsReport` (the insert schema omits `id`, `created_at`, `updated_at`). -/
structure InsertTpsReport where
  creator_id : Nat
  receiver_id : Nat
  status : String
  date : String
  time_start : String
  time_end : String
  location : String
  location_other : Option String
  sound : String
  form_data : FormData
  creator_notes : Option String
  receiver_notes : Option String
  creator_initials : Option String
  receiver_initials : Option String
  replicated_from_id : Option Nat
  pdf_path : Option String
deriving DecidableEq, Repr

/-- The `details` JSONB payload of a log row: `{}`, `{ status: ... }` (update route) or
`{ original_id: ... }` (replication). -/
inductive LogDetails where
  | empty : LogDetails
  | status (s : String) : LogDetails
  | originalId (id : Nat) : LogDetails
deriving DecidableEq, Repr

/-- A row of the `tps_logs` table (`src/shared/schema.ts` lines 53–60). -/
structure TpsLog where
  id : Nat
  tps_id : Nat
  user_id : Nat
  action : String
  timestamp : Nat
  details : LogDetails
deriving DecidableEq, Repr

/-- Model of `InsertTpsLog` (insert schema omits `id` and `timestamp`). -/
structure InsertTpsLog where
  tps_id : Nat
  user_id : Nat
  action : String
  details : LogDetails
deriving DecidableEq, Repr

/-- A row of the `users` table. -/
structure User where
  id : Nat
  username : String
  name : String
  email : String
  partner_id : Option Nat
deriving DecidableEq, Repr

/-- A `Partial<TpsReport>` update payload as merged by `updateTpsReport`
(`storage.ts` line 151: `{ ...report, ...data, updated_at: new Date() }`).
A `none` field models an absent key; a present field overwrites the stored one. -/
structure UpdateData where
  creator_id : Option Nat := none
  receiver_id : Option Nat := none
  status : Option String := none
  date : Option String := none
  time_start : Option String := none
  time_end : Option String := none
  location : Option String := none
  location_other : Option (Option String) := none
  sound : Option String := none
  form_data : Option FormData := none
  creator_notes : Option (Option String) := none
  receiver_notes : Option (Option String) := none
  creator_initials : Option (Option String) := none
  receiver_initials : Option (Option String) := none
  replicated_from_id : Option (Option Nat) := none
  pdf_path : Option (Option String) := none
deriving DecidableEq, Repr

/-- The object-spread merge `{ ...report, ...data, updated_at: new Date() }` performed
by `MemStorage.updateTpsReport` (`storage.ts` lines 155–159). -/
def applyUpdate (r : TpsReport) (d : UpdateData) (now : Nat) : TpsReport :=
  { r with
    creator_id := d.creator_id.getD r.creator_id
    receiver_id := d.receiver_id.getD r.receiver_id
    status := d.status.getD r.status
    date := d.date.getD r.date
    time_start := d.time_start.getD r.time_start
    time_end := d.time_end.getD r.time_end
    location := d.location.getD r.location
    location_other := d.location_other.getD r.location_other
    sound := d.sound.getD r.sound
    form_data := d.form_data.getD r.form_data
    creator_notes := d.creator_notes.getD r.creator_notes
    receiver_notes := d.receiver_notes.getD r.receiver_notes
    creator_initials := d.creator_initials.getD r.creator_initials
    receiver_initials := d.receiver_initials.getD r.receiver_initials
    replicated_from_id := d.replicated_from_id.getD r.replicated_from_id
    pdf_path := d.pdf_path.getD r.pdf_path
    updated_at := now }

/-- The `MemStorage` state (`storage.ts` lines 41–57): the `users` and `tpsReports`
maps, the logs map (kept as an insertion-ordered list), and the id counters. -/
structure Store where
  users : Nat → Option User
  tpsReports : Nat → Option TpsReport
  tpsLogs : List TpsLog
  tpsId : Nat
  logId : Nat

/-- Embeds `MemStorage.getTpsReport` (`storage.ts` lines 147–149). -/
def getTpsReport (s : Store) (id : Nat) : Option TpsReport :=
  s.tpsReports id

/-- Embeds `MemStorage.createTpsLog` (`storage.ts` lines 229–239). -/
def createTpsLog (s : Store) (log : InsertTpsLog) (now : Nat) : Store × TpsLog :=
  let tpsLog : TpsLog :=
    { id := s.logId, tps_id := log.tps_id, user_id := log.user_id,
      action := log.action, timestamp := now, details := log.details }
  ({ s with tpsLogs := s.tpsLogs ++ [tpsLog], logId := s.logId + 1 }, tpsLog)

/-- Embeds `MemStorage.createTpsReport` (`storage.ts` lines 124–145): assigns the next id,
stamps `created_at`/`updated_at`, stores the row, then writes a `created` log entry
attributed to `report.creator_id`. -/
def createTpsReport (s : Store) (report : InsertTpsReport) (now : Nat) :
    Store × TpsReport :=
  let id := s.tpsId
  let tpsReport : TpsReport :=
    { id := id, created_at := now, updated_at := now,
      creator_id := report.creator_id, receiver_id := report.receiver_id,
      status := report.status, date := report.date,
      time_start := report.time_start, time_end := report.time_end,
      location := report.location, location_other := report.location_other,
      sound := report.sound, form_data := report.form_data,
      creator_notes := report.creator_notes, receiver_notes := report.receiver_notes,
      creator_initials := report.creator_initials,
      receiver_initials := report.receiver_initials,
      replicated_from_id := report.replicated_from_id, pdf_path := report.pdf_path }
  let s1 : Store :=
    { s with
      tpsReports := fun k => if k = id then some tpsReport else s.tpsReports k
      tpsId := s.tpsId + 1 }
  let s2 := (createTpsLog s1
    { tps_id := id, user_id := report.creator_id, action := "created",
      details := LogDetails.empty } now).1
  (s2, tpsReport)

/-- Embeds `MemStorage.updateTpsReport` (`storage.ts` lines 151–163): looks the report up,
merges the payload unconditionally and stores the result.  There is no check of the
current status. -/
def updateTpsReport (s : Store) (id : Nat) (data : UpdateData) (now : Nat) :
    Store × Option TpsReport :=
  match s.tpsReports id with
  | none => (s, none)
  | some report =>
    let updatedReport := applyUpdate report data now
    ({ s with
        tpsReports := fun k => if k = id then some updatedReport else s.tpsReports k },
      some updatedReport)

/-- Embeds `MemStorage.replicateTpsReport` (`storage.ts` lines 181–226): deep-copies
`form_data`, resets `emotional_state` when the key is present, sets `date` to today,
clears notes/initials/`pdf_path`, forces `draft`, records provenance, creates the new
report (which itself writes the `created` log) and then writes a `replicated` log —
both logs attributed to `original.creator_id`. -/
def replicateTpsReport (s : Store) (id : Nat) (today : String) (now : Nat) :
    Store × Option TpsReport :=
  match s.tpsReports id with
  | none => (s, none)
  | some original =>
    let formData : FormData :=
      { original.form_data with
        emotional_state :=
          original.form_data.emotional_state.map fun _ => { matt := "", mina := "" } }
    let newReport : InsertTpsReport :=
      { creator_id := original.creator_id
        receiver_id := original.receiver_id
        status := TpsStatus.DRAFT
        date := today
        time_start := original.time_start
        time_end := original.time_end
        location := original.location
        location_other := original.location_other
        sound := original.sound
        form_data := formData
        creator_notes := some ""
        receiver_notes := some ""
        creator_initials := some ""
        receiver_initials := some ""
        replicated_from_id := some original.id
        pdf_path := some "" }
    let created := createTpsReport s newReport now
    let s2 := (createTpsLog created.1
      { tps_id := created.2.id, user_id := original.creator_id,
        action := "replicated", details := LogDetails.originalId original.id } now).1
    (s2, some created.2)

/-- Embeds `MemStorage.getUserWithPartner` (`storage.ts` lines 113–121). -/
def getUserWithPartner (s : Store) (userId : Nat) : Option (User × User) :=
  match s.users userId with
  | none => none
  | some user =>
    match user.partner_id with
    | none => none
    | some pid =>
      match s.users pid with
      | none => none
      | some partner => some (user, partner)

/-- Outcome of a route handler: `ok` models `res.json(...)` / `res.status(201).json(...)`
on the happy path, `err code msg` models `res.status(code).json({ message: msg })`. -/
inductive RouteResult where
  | ok (r : TpsReport) : RouteResult
  | err (code : Nat) (msg : String) : RouteResult
deriving DecidableEq, Repr

/-- Side effects fired by the routes: `storage.sendEmail(to, subject, body)` (body text
elided — it carries no control flow) and `storage.addToCalendar(userId, event)`. -/
inductive Effect where
  | email (toAddr : String) (subject : String) : Effect
  | calendar (userId : Nat) : Effect
deriving DecidableEq, Repr

/-- The permission gate of `PUT /api/tps-reports/:id` (`routes.ts` lines 242–271):
404 when the report is missing, 403 when the actor is neither party, then the
per-status ownership checks and the terminal-status check, in source order.
Returns the fetched report when every check passes. -/
def putGate (s : Store) (userId reportId : Nat) : TpsReport ⊕ (Nat × String) :=
  match getTpsReport s reportId with
  | none => Sum.inr (404, "TPS report not found")
  | some report =>
    let isCreator := report.creator_id = userId
    let isReceiver := report.receiver_id = userId
    if ¬isCreator ∧ ¬isReceiver then
      Sum.inr (403, "Access denied to this report")
    else if report.status = TpsStatus.DRAFT ∧ ¬isCreator then
      Sum.inr (403, "Only the creator can edit a draft")
    else if report.status = TpsStatus.PENDING_REVIEW ∧ ¬isReceiver then
      Sum.inr (403, "Only the receiver can review this report")
    else if report.status = TpsStatus.PENDING_APPROVAL ∧ ¬isCreator then
      Sum.inr (403, "Only the creator can approve this report")
    else if report.status = TpsStatus.COMPLETED ∨ report.status = TpsStatus.ABORTED then
      Sum.inr (403, "This report is already finalized")
    else
      Sum.inl report

/-- The notification/calendar block of the PUT handler (`routes.ts` lines 289–332):
an else-if chain on `updateData.status`, with `isCreator`/`isReceiver` computed from
the report snapshot fetched at the start of the request. -/
def putEffects (s : Store) (userId : Nat) (report : TpsReport) (updateData : UpdateData) :
    List Effect :=
  match getUserWithPartner s userId with
  | none => []
  | some (user, partner) =>
    let isCreator := report.creator_id = userId
    let isReceiver := report.receiver_id = userId
    if updateData.status = some TpsStatus.PENDING_REVIEW ∧ isCreator then
      [Effect.email partner.email "TPS Report Ready for Review"]
    else if updateData.status = some TpsStatus.PENDING_APPROVAL ∧ isReceiver then
      [Effect.email partner.email "TPS Report Ready for Your Approval"]
    else if updateData.status = some TpsStatus.COMPLETED ∧ isCreator then
      [Effect.email partner.email "TPS Report Completed",
       Effect.calendar userId, Effect.calendar partner.id]
    else if updateData.status = some TpsStatus.ABORTED then
      [Effect.email (if isCreator then partner.email else user.email)
        "TPS Report Aborted"]
    else
      []

/-- Embeds `PUT /api/tps-reports/:id` (`routes.ts` lines 233–339), split into the read/check
phase and the write phase.  `readStore` is the state against which `getTpsReport` and
the permission checks run; `writeStore` is the state `storage.updateTpsReport`,
`storage.createTpsLog` and the side effects run against.  The sequential handler is
`putTpsReport`, where both are the same state; separating them lets two in-flight
requests interleave exactly as the await points of the source allow. -/
def putPhased (readStore writeStore : Store) (userId reportId : Nat)
    (updateData : UpdateData) (now : Nat) : RouteResult × Store × List Effect :=
  match putGate readStore userId reportId with
  | Sum.inr (code, msg) => (RouteResult.err code msg, writeStore, [])
  | Sum.inl report =>
    match updateTpsReport writeStore reportId updateData now with
    | (s1, none) => (RouteResult.err 500 "Failed to update TPS report", s1, [])
    | (s1, some updatedReport) =>
      let s2 := (createTpsLog s1
        { tps_id := reportId, user_id := userId, action := "updated",
          details := LogDetails.status updatedReport.status } now).1
      (RouteResult.ok updatedReport, s2, putEffects s2 userId report updateData)

/-- The sequential `PUT /api/tps-reports/:id` handler. -/
def putTpsReport (s : Store) (userId reportId : Nat) (updateData : UpdateData)
    (now : Nat) : RouteResult × Store × List Effect :=
  putPhased s s userId reportId updateData now

/-- Embeds `POST /api/tps-reports/:id/replicate` (`routes.ts` lines 341–373): 404 when the
report is missing, 400 unless the status is terminal, then
`storage.replicateTpsReport(reportId)` — note the handler never passes `userId` to
the storage operation. -/
def replicateRoute (s : Store) (userId reportId : Nat) (today : String) (now : Nat) :
    RouteResult × Store :=
  match getTpsReport s reportId with
  | none => (RouteResult.err 404 "TPS report not found", s)
  | some report =>
    if report.status ≠ TpsStatus.COMPLETED ∧ report.status ≠ TpsStatus.ABORTED then
      (RouteResult.err 400 "Only completed or aborted reports can be replicated", s)
    else
      match replicateTpsReport s reportId today now with
      | (s1, none) => (RouteResult.err 500 "Failed to replicate TPS report", s1)
      | (s1, some newReport) => (RouteResult.ok newReport, s1)

/-- The status transitions listed in the spec's §4.3 table (the mutation rows). -/
def legalTransition (src dst : String) : Bool :=
  (src = TpsStatus.DRAFT && dst = TpsStatus.PENDING_REVIEW) ||
  (src = TpsStatus.PENDING_REVIEW && dst = TpsStatus.PENDING_APPROVAL) ||
  (src = TpsStatus.PENDING_REVIEW && dst = TpsStatus.ABORTED) ||
  (src = TpsStatus.PENDING_APPROVAL && dst = TpsStatus.COMPLETED) ||
  (src = TpsStatus.PENDING_APPROVAL && dst = TpsStatus.ABORTED)

/-- Status of the report a route result carries, when it carries one. -/
def RouteResult.statusOf : RouteResult → Option String
  | RouteResult.ok r => some r.status
  | RouteResult.err _ _ => none

/-- The HTTP error code of a route result, when it is an error. -/
def RouteResult.errCode : RouteResult → Option Nat
  | RouteResult.ok _ => none
  | RouteResult.err code _ => some code

/-- Status of the report stored under `id`, when one is stored. -/
def reportStatusAt (s : Store) (id : Nat) : Option String :=
  (s.tpsReports id).map TpsReport.status

/-- JavaScript `a || b` for a possibly-absent string: `undefined` and `''` are falsy. -/
def jsOr (a : Option String) (b : String) : String :=
  match a with
  | none => b
  | some s => if s = "" then b else s

/-- A field rectangle as unpacked from `annotation.rect` (`pdf.ts` lines 74–81:
`rect[0]`→`left`, `rect[1]`→`top`, `rect[2]`→`right`, `rect[3]`→`bottom`). -/
structure FieldRect where
  left : ℚ
  top : ℚ
  right : ℚ
  bottom : ℚ
deriving DecidableEq, Repr

/-- One entry of `annotation.options` (`pdf.ts` line 85). -/
structure AnnotOption where
  displayValue : String
  exportValue : String
deriving DecidableEq, Repr

/-- The slice of a pdf.js annotation object read by `extractFormFields`
(`pdf.ts` lines 61–96).  Absent properties are `none`. -/
structure Annot where
  subtype : String
  fieldName : Option String
  fieldType : Option String
  buttonValue : Option String
  fieldValue : Option String
  defaultValue : Option String
  required : Bool
  rect : Option FieldRect
  options : Option (List AnnotOption)
  exportValue : Option String
  maxLen : Option Nat
deriving DecidableEq, Repr

/-- A page of the parsed document: its annotation array in document order, and the
nominal (user-space) page size that `page.getViewport` scales. -/
structure PdfPage where
  annotations : List Annot
  width : ℚ
  height : ℚ
deriving DecidableEq, Repr

/-- The parsed PDF document: pages in order (`getPage(i)` for `i = 1..numPages`). -/
structure PdfDoc where
  pages : List PdfPage
deriving DecidableEq, Repr

/-- The `FormField` descriptor built by `extractFormFields` (`pdf.ts` lines 8–19). -/
structure FormField where
  name : String
  type : String
  value : String
  pageNumber : Nat
  defaultValue : String
  isRequired : Bool
  rect : Option FieldRect
  options : Option (List String)
  exportValue : Option String
  maxLength : Option Nat
deriving DecidableEq, Repr

/-- The per-annotation descriptor construction of `extractFormFields` (`pdf.ts`
lines 64–98), with JavaScript truthiness spelled out: `fieldName || 'unnamed'`,
`fieldType || 'unknown'`, `buttonValue || fieldValue || ''`, `defaultValue || ''`;
`options` is kept whenever the property exists (an empty array is truthy);
`exportValue` only when a non-empty string; `maxLength` only when `maxLen` is a
non-zero number. -/
def fieldOfAnnot (pageNumber : Nat) (a : Annot) : FormField :=
  { name := jsOr a.fieldName "unnamed"
    type := jsOr a.fieldType "unknown"
    value := jsOr a.buttonValue (jsOr a.fieldValue "")
    pageNumber := pageNumber
    defaultValue := jsOr a.defaultValue ""
    isRequired := a.required
    rect := a.rect
    options := a.options.map (List.map fun o =>
      if o.displayValue = "" then o.exportValue else o.displayValue)
    exportValue :=
      match a.exportValue with
      | none => none
      | some s => if s = "" then none else some s
    maxLength :=
      match a.maxLen with
      | none => none
      | some n => if n = 0 then none else some n }

/-- The inner loop of `extractFormFields` for one page (`pdf.ts` lines 61–99):
keep the `Widget`-subtype annotations in order and map each to its descriptor. -/
def pageWidgetFields (pageNumber : Nat) (p : PdfPage) : List FormField :=
  (p.annotations.filter fun a => a.subtype = "Widget").map (fieldOfAnnot pageNumber)

/-- The page loop of `extractFormFields` (`pdf.ts` line 57: `for i in 1..numPages`),
pushing each page's fields onto the accumulating array. -/
def extractFromPages : Nat → List PdfPage → List FormField
  | _, [] => []
  | i, p :: ps => pageWidgetFields i p ++ extractFromPages (i + 1) ps

/-- Embeds `extractFormFields` (`pdf.ts` lines 54–103). -/
def extractFormFields (doc : PdfDoc) : List FormField :=
  extractFromPages 1 doc.pages

/-- Modelled from the spec: the field order the spec promises — "page order, then
annotation order within page", pages 1-indexed.  Stated independently of the
extraction loop so the two can be compared. -/
def specFieldOrder (doc : PdfDoc) : List FormField :=
  (List.range doc.pages.length).flatMap fun i =>
    match doc.pages.get? i with
    | none => []
    | some p => pageWidgetFields (i + 1) p

/-- Embeds how `renderPdfToCanvas` (`pdf.ts` lines 105–141) sizes the canvas from
`page.getViewport({ scale })`: pixel dimensions are the nominal page size times the
render scale. -/
def renderedCanvasSize (p : PdfPage) (scale : ℚ) : ℚ × ℚ :=
  (p.width * scale, p.height * scale)

/-- A positioned overlay element (the `fieldContainer` style geometry). -/
structure OverlayBox where
  left : ℚ
  top : ℚ
  width : ℚ
  height : ℚ
deriving DecidableEq, Repr

/-- The geometry of `createInteractiveFormElements` (`pdf.ts` lines 230–254):
`scale = canvasElement.width / 595` (line 232), then
`left = rect.left * scale`, `top = canvasHeight - rect.top * scale`,
`width = (rect.right - rect.left) * scale`, `height = (rect.top - rect.bottom) * scale`,
and the container is placed at `(left, top - height)` with that width and height. -/
def overlayBox (canvasWidth canvasHeight : ℚ) (r : FieldRect) : OverlayBox :=
  let scale := canvasWidth / 595
  let left := r.left * scale
  let top := canvasHeight - r.top * scale
  let width := (r.right - r.left) * scale
  let height := (r.top - r.bottom) * scale
  { left := left, top := top - height, width := width, height := height }

/-- The per-page element construction of `createInteractiveFormElements`
(`pdf.ts` lines 234–254): fields of page 1 that carry a rectangle, in order,
mapped to their overlay geometry. -/
def overlayBoxes (canvasWidth canvasHeight : ℚ) (formFields : List FormField) :
    List OverlayBox :=
  (formFields.filter fun f => f.pageNumber = 1).filterMap fun f =>
    (f.rect).map (overlayBox canvasWidth canvasHeight)

/-! ## Concrete fixtures (the seeded two-user universe of `MemStorage.initUsers`) -/

/-- The seeded user `matt` (`storage.ts` lines 69–76). -/
def mattUser : User :=
  { id := 1, username := "matt", name := "Matt", email := "matt@example.com",
    partner_id := some 2 }

/-- The seeded user `mina` (`storage.ts` lines 78–85). -/
def minaUser : User :=
  { id := 2, username := "mina", name := "Mina", email := "mina@example.com",
    partner_id := some 1 }

/-- The two-user table seeded by `initUsers`. -/
def sampleUsers : Nat → Option User := fun k =>
  if k = 1 then some mattUser else if k = 2 then some minaUser else none

/-- A representative `form_data` value. -/
def sampleFormData : FormData :=
  { emotional_state := some { matt := "calm", mina := "curious" },
    rest := [("netflix_show", "Bake Off")] }

/-- A representative report (creator `matt`, receiver `mina`) in a given status. -/
def sampleReport (status : String) : TpsReport :=
  { id := 1, created_at := 0, updated_at := 0, creator_id := 1, receiver_id := 2,
    status := status, date := "2025-01-01", time_start := "21:30",
    time_end := "22:00", location := "master", location_other := none,
    sound := "quiet", form_data := sampleFormData, creator_notes := some "cn",
    receiver_notes := some "rn", creator_initials := some "",
    receiver_initials := some "MN", replicated_from_id := none,
    pdf_path := some "storage/pdfs/tps_report_1.pdf" }

/-- A store holding exactly the sample report (under id 1) in a given status. -/
def sampleStore (status : String) : Store :=
  { users := sampleUsers,
    tpsReports := fun k => if k = 1 then some (sampleReport status) else none,
    tpsLogs := [], tpsId := 2, logId := 1 }

/-- The first request of the concurrency scenario: the receiver approves
(`status := pending_approval`) against the freshly read snapshot. -/
def raceStep1 : RouteResult × Store × List Effect :=
  putPhased (sampleStore TpsStatus.PENDING_REVIEW) (sampleStore TpsStatus.PENDING_REVIEW)
    2 1 { status := some TpsStatus.PENDING_APPROVAL } 5

/-- The second request of the concurrency scenario: the receiver denies
(`status := aborted`); its read happened before the first request's write (it checks
the same snapshot) but its write lands on the store the first request produced. -/
def raceStep2 : RouteResult × Store × List Effect :=
  putPhased (sampleStore TpsStatus.PENDING_REVIEW) raceStep1.2.1
    2 1 { status := some TpsStatus.ABORTED } 6

/-- A document fixture for the extractor: two pages, a text field and a checkbox on
page 1 and a choice field on page 2. -/
def sampleDoc : PdfDoc :=
  { pages :=
    [ { width := 612, height := 792,
        annotations :=
          [ { subtype := "Widget", fieldName := some "date", fieldType := some "text",
              buttonValue := none, fieldValue := some "2025-01-01",
              defaultValue := none, required := false,
              rect := some { left := 10, top := 700, right := 200, bottom := 680 },
              options := none, exportValue := none, maxLen := some 20 },
            { subtype := "Link", fieldName := none, fieldType := none,
              buttonValue := none, fieldValue := none, defaultValue := none,
              required := false, rect := none, options := none,
              exportValue := none, maxLen := none },
            { subtype := "Widget", fieldName := none, fieldType := some "checkbox",
              buttonValue := some "Yes", fieldValue := none, defaultValue := none,
              required := true,
              rect := some { left := 10, top := 650, right := 30, bottom := 630 },
              options := none, exportValue := some "Yes", maxLen := none } ] },
      { width := 612, height := 792,
        annotations :=
          [ { subtype := "Widget", fieldName := some "location",
              fieldType := some "choice", buttonValue := none, fieldValue := none,
              defaultValue := none, required := false,
              rect := some { left := 10, top := 600, right := 200, bottom := 580 },
              options := some [ { displayValue := "Master", exportValue := "master" },
                                { displayValue := "", exportValue := "basement" } ],
              exportValue := none, maxLen := none } ] } ] }

/-- The page-1 geometry of a US-Letter page (612 × 792 user-space units), the size
of a PDF authored in Acrobat at letter size. -/
def letterPage : PdfPage := { annotations := [], width := 612, height := 792 }

/-- An A4-portrait page whose nominal width happens to equal the hard-coded 595. -/
def a4Page : PdfPage := { annotations := [], width := 595, height := 842 }

/-! ## Theorems -/

/-- C4 (counterexample).  `MemStorage.updateTpsReport` does **not** refuse updates to
a terminal report: on a store whose report 1 is `completed`, an update payload
carrying `status := draft` is applied — the call returns a modified report and the
persisted status changes from `completed` to `draft`. -/
theorem c4_counterexample :
    (updateTpsReport (sampleStore TpsStatus.COMPLETED) 1
        { status := some TpsStatus.DRAFT } 5).2 ≠ none ∧
    reportStatusAt (updateTpsReport (sampleStore TpsStatus.COMPLETED) 1
        { status := some TpsStatus.DRAFT } 5).1 1 = some TpsStatus.DRAFT ∧
    reportStatusAt (sampleStore TpsStatus.COMPLETED) 1 = some TpsStatus.COMPLETED := by
  refine ⟨?_, rfl, rfl⟩
  simp [updateTpsReport, sampleStore]

/-- C4 (amended).  The store operation applies any update payload to any stored
report, regardless of its current persisted status — including `completed` and
`aborted`; it returns `none` only when no report exists under the id.  The
terminal-status protection lives solely in the route layer. -/
theorem c4_update_applies_regardless_of_status (s : Store) (id : Nat)
    (d : UpdateData) (now : Nat) (r : TpsReport) (h : s.tpsReports id = some r) :
    (updateTpsReport s id d now).2 = some (applyUpdate r d now) ∧
    ((updateTpsReport s id d now).1).tpsReports id = some (applyUpdate r d now) := by
  simp [updateTpsReport, h]

/-- C4 (witness): the amended theorem applied to the terminal-status store. -/
theorem c4_update_applies_regardless_of_status_witness :
    (updateTpsReport (sampleStore TpsStatus.COMPLETED) 1
        { status := some TpsStatus.DRAFT } 5).2 =
      some (applyUpdate (sampleReport TpsStatus.COMPLETED)
        { status := some TpsStatus.DRAFT } 5) :=
  (c4_update_applies_regardless_of_status (sampleStore TpsStatus.COMPLETED) 1
    { status := some TpsStatus.DRAFT } 5 (sampleReport TpsStatus.COMPLETED) rfl).1

/-- C2 (confirmed).  On a non-terminal report, a `PUT` from a user who is neither
creator nor receiver fails with 403 and changes nothing; and within the two parties,
only the status's owner may write: a `draft` rejects any non-creator, a
`pending_review` rejects any non-receiver, a `pending_approval` rejects any
non-creator — each with 403, the store unchanged and no side effects fired. -/
theorem c2_only_status_owner_writes (s : Store) (u id : Nat) (body : UpdateData)
    (now : Nat) (r : TpsReport) (h : getTpsReport s id = some r) :
    (¬(r.creator_id = u) ∧ ¬(r.receiver_id = u) →
      (putTpsReport s u id body now).1 =
        RouteResult.err 403 "Access denied to this report" ∧
      (putTpsReport s u id body now).2 = (s, [])) ∧
    (r.status = TpsStatus.DRAFT → ¬(r.creator_id = u) →
      (putTpsReport s u id body now).1.errCode = some 403 ∧
      (putTpsReport s u id body now).2 = (s, [])) ∧
    (r.status = TpsStatus.PENDING_REVIEW → ¬(r.receiver_id = u) →
      (putTpsReport s u id body now).1.errCode = some 403 ∧
      (putTpsReport s u id body now).2 = (s, [])) ∧
    (r.status = TpsStatus.PENDING_APPROVAL → ¬(r.creator_id = u) →
      (putTpsReport s u id body now).1.errCode = some 403 ∧
      (putTpsReport s u id body now).2 = (s, [])) := by
  refine ⟨fun hne => ?_, fun hst hc => ?_, fun hst hr => ?_, fun hst hc => ?_⟩
  · simp [putTpsReport, putPhased, putGate, h, hne.1, hne.2]
  · by_cases hrcv : r.receiver_id = u <;>
      simp [putTpsReport, putPhased, putGate, RouteResult.errCode, h, hst, hc, hrcv,
        TpsStatus.DRAFT]
  · by_cases hcr : r.creator_id = u <;>
      simp [putTpsReport, putPhased, putGate, RouteResult.errCode, h, hst, hr, hcr,
        TpsStatus.PENDING_REVIEW, TpsStatus.DRAFT]
  · by_cases hrcv : r.receiver_id = u <;>
      simp [putTpsReport, putPhased, putGate, RouteResult.errCode, h, hst, hc, hrcv,
        TpsStatus.PENDING_APPROVAL, TpsStatus.PENDING_REVIEW, TpsStatus.DRAFT]

/-- C2 (witness): on a `draft` report, user 2 (the receiver — not the creator) is
rejected with 403 and the store is untouched. -/
theorem c2_only_status_owner_writes_witness :
    (putTpsReport (sampleStore TpsStatus.DRAFT) 2 1 { } 5).1.errCode = some 403 ∧
    (putTpsReport (sampleStore TpsStatus.DRAFT) 2 1 { } 5).2 =
      (sampleStore TpsStatus.DRAFT, []) :=
  (c2_only_status_owner_writes (sampleStore TpsStatus.DRAFT) 2 1 { } 5
    (sampleReport TpsStatus.DRAFT) rfl).2.1 rfl (by decide)

/-- C3 (confirmed).  Once a report is `completed` or `aborted`, every request to the
update endpoint fails with 403 — whatever the actor (creator, receiver or anyone
else) — and neither the store nor any side-effect channel is touched. -/
theorem c3_terminal_reports_locked (s : Store) (u id : Nat) (body : UpdateData)
    (now : Nat) (r : TpsReport) (h : getTpsReport s id = some r)
    (hterm : r.status = TpsStatus.COMPLETED ∨ r.status = TpsStatus.ABORTED) :
    (putTpsReport s u id body now).1.errCode = some 403 ∧
    (putTpsReport s u id body now).2 = (s, []) := by
  by_cases hcr : r.creator_id = u <;> by_cases hrcv : r.receiver_id = u <;>
    rcases hterm with hst | hst <;>
      simp [putTpsReport, putPhased, putGate, RouteResult.errCode, h, hst, hcr, hrcv,
        TpsStatus.DRAFT, TpsStatus.PENDING_REVIEW, TpsStatus.PENDING_APPROVAL,
        TpsStatus.COMPLETED, TpsStatus.ABORTED]

/-- C3 (witness): the creator of a `completed` report is rejected with 403. -/
theorem c3_terminal_reports_locked_witness :
    (putTpsReport (sampleStore TpsStatus.COMPLETED) 1 1 { } 5).1.errCode = some 403 ∧
    (putTpsReport (sampleStore TpsStatus.COMPLETED) 1 1 { } 5).2 =
      (sampleStore TpsStatus.COMPLETED, []) :=
  c3_terminal_reports_locked (sampleStore TpsStatus.COMPLETED) 1 1 { } 5
    (sampleReport TpsStatus.COMPLETED) rfl (Or.inl rfl)

/-- C1 (counterexample).  The update route does not constrain the target status: the
creator of a `draft` report can `PUT` `status := "banana"` — the request succeeds and
the stored status becomes `"banana"`, a value outside the `TpsStatus` enumeration
(which, moreover, has five members, not six) reached by a transition absent from the
§4.3 table. -/
theorem c1_counterexample :
    (putTpsReport (sampleStore TpsStatus.DRAFT) 1 1
        { status := some "banana" } 5).1.statusOf = some "banana" ∧
    reportStatusAt (putTpsReport (sampleStore TpsStatus.DRAFT) 1 1
        { status := some "banana" } 5).2.1 1 = some "banana" ∧
    legalTransition TpsStatus.DRAFT "banana" = false ∧
    "banana" ∉ tpsStatusValues := by
  refine ⟨?_, ?_, by decide, by decide⟩ <;>
    simp [putTpsReport, putPhased, putGate, getTpsReport, updateTpsReport,
      createTpsLog, sampleStore, sampleReport, reportStatusAt, RouteResult.statusOf,
      applyUpdate, TpsStatus.DRAFT, TpsStatus.PENDING_REVIEW,
      TpsStatus.PENDING_APPROVAL, TpsStatus.COMPLETED, TpsStatus.ABORTED]

/-- C1 (amended).  What the route does enforce on every successful update: the prior
status was not terminal; the actor is one of the two parties; for each of the three
known non-terminal statuses only its owner role can have acted (creator for `draft`
and `pending_approval`, receiver for `pending_review`).  The target status itself is
unconstrained: the resulting status is exactly whatever the payload carried (or the
old status when the payload carried none), so transitions outside the §4.3 table —
and status values outside the five-member enumeration — are reachable. -/
theorem c1_route_gates_role_not_target (s : Store) (u id : Nat) (body : UpdateData)
    (now : Nat) (r r' : TpsReport) (h : getTpsReport s id = some r)
    (hok : (putTpsReport s u id body now).1 = RouteResult.ok r') :
    (¬(r.status = TpsStatus.COMPLETED) ∧ ¬(r.status = TpsStatus.ABORTED)) ∧
    (r.creator_id = u ∨ r.receiver_id = u) ∧
    (r.status = TpsStatus.DRAFT → r.creator_id = u) ∧
    (r.status = TpsStatus.PENDING_REVIEW → r.receiver_id = u) ∧
    (r.status = TpsStatus.PENDING_APPROVAL → r.creator_id = u) ∧
    r'.status = body.status.getD r.status := by
  have h' : s.tpsReports id = some r := h
  simp only [putTpsReport, putPhased, putGate, getTpsReport, updateTpsReport,
    h'] at hok
  split_ifs at hok with h1 h2 h3 h4 h5 <;> cases hok
  refine ⟨⟨fun hc => h5 (Or.inl hc), fun ha => h5 (Or.inr ha)⟩, ?_, ?_, ?_, ?_, rfl⟩
  · by_contra hboth
    push_neg at hboth
    exact h1 ⟨hboth.1, hboth.2⟩
  · intro hd
    by_contra hc
    exact h2 ⟨hd, hc⟩
  · intro hd
    by_contra hc
    exact h3 ⟨hd, hc⟩
  · intro hd
    by_contra hc
    exact h4 ⟨hd, hc⟩

/-- C1 (witness): the amended theorem applied to the counterexample request — the
stored status becomes exactly what the payload carried. -/
theorem c1_route_gates_role_not_target_witness :
    (applyUpdate (sampleReport TpsStatus.DRAFT) { status := some "banana" } 5).status =
      (({ status := some "banana" } : UpdateData).status).getD
        (sampleReport TpsStatus.DRAFT).status :=
  (c1_route_gates_role_not_target (sampleStore TpsStatus.DRAFT) 1 1
    { status := some "banana" } 5 (sampleReport TpsStatus.DRAFT)
    (applyUpdate (sampleReport TpsStatus.DRAFT) { status := some "banana" } 5)
    rfl (by decide)).2.2.2.2.2

/-- C5 (confirmed).  Replicating a `completed` report yields a fresh report whose
status is `draft`, whose `replicated_from_id` is the original's id, whose
emotional-state-equivalent fields (`form_data.emotional_state` and the two notes
columns) and both initials are cleared, whose `date` is today, and whose remaining
content fields (times, location, sound, the rest of `form_data`) equal the
original's; the original row itself is left untouched. -/
theorem c5_replicate_completed_roundtrip (s : Store) (id : Nat) (today : String)
    (now : Nat) (r : TpsReport) (h : s.tpsReports id = some r)
    (hst : r.status = TpsStatus.COMPLETED) (hfresh : s.tpsReports s.tpsId = none) :
    (replicateTpsReport s id today now).2 = some
      { id := s.tpsId, created_at := now, updated_at := now,
        creator_id := r.creator_id, receiver_id := r.receiver_id,
        status := TpsStatus.DRAFT, date := today,
        time_start := r.time_start, time_end := r.time_end,
        location := r.location, location_other := r.location_other,
        sound := r.sound,
        form_data :=
          { emotional_state :=
              r.form_data.emotional_state.map fun _ => { matt := "", mina := "" },
            rest := r.form_data.rest },
        creator_notes := some "", receiver_notes := some "",
        creator_initials := some "", receiver_initials := some "",
        replicated_from_id := some r.id, pdf_path := some "" } ∧
    ((replicateTpsReport s id today now).1).tpsReports id = some r := by
  have hne : id ≠ s.tpsId := by
    intro he
    rw [he, hfresh] at h
    cases h
  constructor
  · simp [replicateTpsReport, createTpsReport, createTpsLog, h]
  · simp [replicateTpsReport, createTpsReport, createTpsLog, h, hne]

/-- C5 (witness): the theorem applied to the sample completed report. -/
theorem c5_replicate_completed_roundtrip_witness :
    ((replicateTpsReport (sampleStore TpsStatus.COMPLETED) 1 "2025-02-02" 7).1).tpsReports 1
      = some (sampleReport TpsStatus.COMPLETED) :=
  (c5_replicate_completed_roundtrip (sampleStore TpsStatus.COMPLETED) 1 "2025-02-02" 7
    (sampleReport TpsStatus.COMPLETED) rfl rfl rfl).2

/-- C10 (confirmed).  Whoever invokes replication (the route never forwards the
session user to the storage layer), the new report keeps the original's
`creator_id` and `receiver_id`, and both log rows written during replication — the
`created` entry and the `replicated` entry — carry the **original creator's** user
id, not the invoker's. -/
theorem c10_replicate_attribution (s : Store) (u id : Nat) (today : String)
    (now : Nat) (r : TpsReport) (h : getTpsReport s id = some r)
    (hterm : r.status = TpsStatus.COMPLETED ∨ r.status = TpsStatus.ABORTED) :
    ∃ r', (replicateRoute s u id today now).1 = RouteResult.ok r' ∧
      r'.creator_id = r.creator_id ∧ r'.receiver_id = r.receiver_id ∧
      (replicateRoute s u id today now).2.tpsLogs = s.tpsLogs ++
        [{ id := s.logId, tps_id := s.tpsId, user_id := r.creator_id,
           action := "created", timestamp := now, details := LogDetails.empty },
         { id := s.logId + 1, tps_id := s.tpsId, user_id := r.creator_id,
           action := "replicated", timestamp := now,
           details := LogDetails.originalId r.id }] := by
  have h' : s.tpsReports id = some r := h
  refine ⟨{ id := s.tpsId, created_at := now, updated_at := now,
            creator_id := r.creator_id, receiver_id := r.receiver_id,
            status := TpsStatus.DRAFT, date := today,
            time_start := r.time_start, time_end := r.time_end,
            location := r.location, location_other := r.location_other,
            sound := r.sound,
            form_data :=
              { emotional_state :=
                  r.form_data.emotional_state.map fun _ => { matt := "", mina := "" },
                rest := r.form_data.rest },
            creator_notes := some "", receiver_notes := some "",
            creator_initials := some "", receiver_initials := some "",
            replicated_from_id := some r.id, pdf_path := some "" }, ?_, rfl, rfl, ?_⟩ <;>
    rcases hterm with hst | hst <;>
      simp [replicateRoute, replicateTpsReport, createTpsReport, createTpsLog,
        getTpsReport, h', hst, TpsStatus.COMPLETED, TpsStatus.ABORTED]

/-- C10 (witness): user 2 (the receiver, not the creator) replicates the sample
aborted report; both log rows are attributed to user 1, the original creator. -/
theorem c10_replicate_attribution_witness :
    ∃ r', (replicateRoute (sampleStore TpsStatus.ABORTED) 2 1 "2025-02-02" 7).1 =
        RouteResult.ok r' ∧
      r'.creator_id = (sampleReport TpsStatus.ABORTED).creator_id ∧
      r'.receiver_id = (sampleReport TpsStatus.ABORTED).receiver_id ∧
      (replicateRoute (sampleStore TpsStatus.ABORTED) 2 1 "2025-02-02" 7).2.tpsLogs =
        (sampleStore TpsStatus.ABORTED).tpsLogs ++
        [{ id := (sampleStore TpsStatus.ABORTED).logId,
           tps_id := (sampleStore TpsStatus.ABORTED).tpsId,
           user_id := (sampleReport TpsStatus.ABORTED).creator_id,
           action := "created", timestamp := 7, details := LogDetails.empty },
         { id := (sampleStore TpsStatus.ABORTED).logId + 1,
           tps_id := (sampleStore TpsStatus.ABORTED).tpsId,
           user_id := (sampleReport TpsStatus.ABORTED).creator_id,
           action := "replicated", timestamp := 7,
           details := LogDetails.originalId (sampleReport TpsStatus.ABORTED).id }] :=
  c10_replicate_attribution (sampleStore TpsStatus.ABORTED) 2 1 "2025-02-02" 7
    (sampleReport TpsStatus.ABORTED) rfl (Or.inr rfl)

/-- C6 (counterexample).  The server does not check `creator_initials` on the
`pending_approval → completed` transition: the creator completes the sample report
whose stored `creator_initials` is the empty string, with a payload carrying no
initials at all — and the request succeeds.  Moreover only one e-mail is sent (to
the partner), so "both parties are notified" also fails; the calendar event is
scheduled for both. -/
theorem c6_counterexample :
    (putTpsReport (sampleStore TpsStatus.PENDING_APPROVAL) 1 1
        { status := some TpsStatus.COMPLETED } 5).1.statusOf =
      some TpsStatus.COMPLETED ∧
    (sampleReport TpsStatus.PENDING_APPROVAL).creator_initials = some "" ∧
    ({ status := some TpsStatus.COMPLETED } : UpdateData).creator_initials = none ∧
    (putTpsReport (sampleStore TpsStatus.PENDING_APPROVAL) 1 1
        { status := some TpsStatus.COMPLETED } 5).2.2 =
      [Effect.email "mina@example.com" "TPS Report Completed",
       Effect.calendar 1, Effect.calendar 2] := by
  refine ⟨?_, rfl, rfl, ?_⟩ <;>
    simp [putTpsReport, putPhased, putGate, putEffects, getTpsReport,
      updateTpsReport, createTpsLog, getUserWithPartner, sampleStore, sampleReport,
      sampleUsers, mattUser, minaUser, applyUpdate, RouteResult.statusOf,
      TpsStatus.DRAFT, TpsStatus.PENDING_REVIEW, TpsStatus.PENDING_APPROVAL,
      TpsStatus.COMPLETED, TpsStatus.ABORTED]

/-- C6 (amended).  The `pending_approval → completed` transition by the creator
succeeds for **every** payload that sets `status := completed` — no initials
precondition is enforced server-side (the check lives only in the client UI) — and
on success the partner (alone) is e-mailed and a follow-up calendar event is
scheduled for both parties. -/
theorem c6_completion_unconditional_with_effects (s : Store) (u id pid : Nat)
    (body : UpdateData) (now : Nat) (r : TpsReport) (user partner : User)
    (h : getTpsReport s id = some r)
    (hst : r.status = TpsStatus.PENDING_APPROVAL)
    (hc : r.creator_id = u)
    (hbody : body.status = some TpsStatus.COMPLETED)
    (hu : s.users u = some user) (hp : user.partner_id = some pid)
    (hpu : s.users pid = some partner) :
    (putTpsReport s u id body now).1 = RouteResult.ok (applyUpdate r body now) ∧
    reportStatusAt (putTpsReport s u id body now).2.1 id = some TpsStatus.COMPLETED ∧
    (putTpsReport s u id body now).2.2 =
      [Effect.email partner.email "TPS Report Completed",
       Effect.calendar u, Effect.calendar partner.id] := by
  have h' : s.tpsReports id = some r := h
  refine ⟨?_, ?_, ?_⟩ <;>
    simp [putTpsReport, putPhased, putGate, putEffects, getTpsReport,
      updateTpsReport, createTpsLog, getUserWithPartner, reportStatusAt,
      applyUpdate, h', hst, hc, hbody, hu, hp, hpu, TpsStatus.DRAFT,
      TpsStatus.PENDING_REVIEW, TpsStatus.PENDING_APPROVAL, TpsStatus.COMPLETED,
      TpsStatus.ABORTED]

/-- C6 (witness): the amended theorem applied to the counterexample input. -/
theorem c6_completion_unconditional_with_effects_witness :
    (putTpsReport (sampleStore TpsStatus.PENDING_APPROVAL) 1 1
        { status := some TpsStatus.COMPLETED } 5).1 =
      RouteResult.ok (applyUpdate (sampleReport TpsStatus.PENDING_APPROVAL)
        { status := some TpsStatus.COMPLETED } 5) :=
  (c6_completion_unconditional_with_effects (sampleStore TpsStatus.PENDING_APPROVAL)
    1 1 2 { status := some TpsStatus.COMPLETED } 5
    (sampleReport TpsStatus.PENDING_APPROVAL) mattUser minaUser
    rfl rfl rfl rfl rfl rfl rfl).1

/-- C7 (counterexample).  Two near-simultaneous conflicting transitions on the same
`pending_review` report — the receiver approving (request 1) and denying
(request 2), request 2's read landing before request 1's write — **both** succeed:
request 1 returns the report as `pending_approval`, request 2 returns it as
`aborted`, the final stored status is the last writer's, and neither request
observes a 409 Conflict. -/
theorem c7_counterexample :
    raceStep1.1.statusOf = some TpsStatus.PENDING_APPROVAL ∧
    raceStep2.1.statusOf = some TpsStatus.ABORTED ∧
    reportStatusAt raceStep2.2.1 1 = some TpsStatus.ABORTED ∧
    raceStep1.1.errCode ≠ some 409 ∧
    raceStep2.1.errCode ≠ some 409 := by
  refine ⟨?_, ?_, ?_, ?_, ?_⟩ <;>
    simp [raceStep1, raceStep2, putPhased, putGate, putEffects, getTpsReport,
      updateTpsReport, createTpsLog, getUserWithPartner, sampleStore, sampleReport,
      sampleUsers, mattUser, minaUser, applyUpdate, reportStatusAt,
      RouteResult.statusOf, RouteResult.errCode, TpsStatus.DRAFT,
      TpsStatus.PENDING_REVIEW, TpsStatus.PENDING_APPROVAL, TpsStatus.COMPLETED,
      TpsStatus.ABORTED]

/-- Passing the permission gate pins the report the gate read: `putGate` returns
`Sum.inl r` only when `r` is the stored report. -/
theorem putGate_inl {s : Store} {u id : Nat} {r : TpsReport}
    (h : putGate s u id = Sum.inl r) : s.tpsReports id = some r := by
  unfold putGate at h
  cases hg : getTpsReport s id with
  | none => rw [hg] at h; cases h
  | some rep =>
    rw [hg] at h
    simp only [] at h
    split_ifs at h <;> cases h
    exact hg

/-- C7 (amended).  The update route performs no atomic conditional update and has no
Conflict path at all: whenever two requests both pass the permission gate against
the same snapshot, interleaving their read and write phases lets **both** succeed —
the final status is whatever the second writer's payload carried — and neither
request can ever observe a 409. -/
theorem c7_no_conflict_both_succeed (s : Store) (u1 u2 id : Nat)
    (b1 b2 : UpdateData) (n1 n2 : Nat) (r1 r2 : TpsReport)
    (hg1 : putGate s u1 id = Sum.inl r1) (hg2 : putGate s u2 id = Sum.inl r2) :
    (putPhased s s u1 id b1 n1).1 =
      RouteResult.ok (applyUpdate r1 b1 n1) ∧
    (putPhased s (putPhased s s u1 id b1 n1).2.1 u2 id b2 n2).1 =
      RouteResult.ok (applyUpdate (applyUpdate r1 b1 n1) b2 n2) ∧
    (∀ t, b2.status = some t →
      reportStatusAt (putPhased s (putPhased s s u1 id b1 n1).2.1 u2 id b2 n2).2.1 id
        = some t) ∧
    (putPhased s s u1 id b1 n1).1.errCode ≠ some 409 ∧
    (putPhased s (putPhased s s u1 id b1 n1).2.1 u2 id b2 n2).1.errCode ≠ some 409 := by
  have hr1 : s.tpsReports id = some r1 := putGate_inl hg1
  have hfst :
      (putPhased s s u1 id b1 n1).2.1.tpsReports id = some (applyUpdate r1 b1 n1) := by
    simp [putPhased, hg1, updateTpsReport, createTpsLog, hr1]
  refine ⟨?_, ?_, ?_, ?_, ?_⟩
  · simp [putPhased, hg1, updateTpsReport, createTpsLog, hr1]
  · simp [putPhased, hg1, hg2, updateTpsReport, createTpsLog, hr1, hfst]
  · intro t ht
    simp [putPhased, hg1, hg2, updateTpsReport, createTpsLog, hr1, hfst,
      reportStatusAt, applyUpdate, ht]
  · simp [putPhased, hg1, updateTpsReport, createTpsLog, hr1, RouteResult.errCode]
  · simp [putPhased, hg1, hg2, updateTpsReport, createTpsLog, hr1, hfst,
      RouteResult.errCode]

/-- C7 (witness): the amended theorem applied to the concrete race — both requests
of the counterexample scenario return `ok`. -/
theorem c7_no_conflict_both_succeed_witness :
    raceStep1.1 = RouteResult.ok
      (applyUpdate (sampleReport TpsStatus.PENDING_REVIEW)
        { status := some TpsStatus.PENDING_APPROVAL } 5) ∧
    raceStep2.1 = RouteResult.ok
      (applyUpdate (applyUpdate (sampleReport TpsStatus.PENDING_REVIEW)
        { status := some TpsStatus.PENDING_APPROVAL } 5)
        { status := some TpsStatus.ABORTED } 6) :=
  ⟨(c7_no_conflict_both_succeed (sampleStore TpsStatus.PENDING_REVIEW) 2 2 1
      { status := some TpsStatus.PENDING_APPROVAL } { status := some TpsStatus.ABORTED }
      5 6 (sampleReport TpsStatus.PENDING_REVIEW) (sampleReport TpsStatus.PENDING_REVIEW)
      (by decide) (by decide)).1,
   (c7_no_conflict_both_succeed (sampleStore TpsStatus.PENDING_REVIEW) 2 2 1
      { status := some TpsStatus.PENDING_APPROVAL } { status := some TpsStatus.ABORTED }
      5 6 (sampleReport TpsStatus.PENDING_REVIEW) (sampleReport TpsStatus.PENDING_REVIEW)
      (by decide) (by decide)).2.1⟩

/-- The page loop of the extractor, started at any 1-based offset, produces exactly
the page-major flattening: for each page index in order, that page's widget fields
in annotation order. -/
theorem extractFromPages_spec (ps : List PdfPage) (k : Nat) :
    extractFromPages (k + 1) ps = (List.range ps.length).flatMap fun i =>
      match ps.get? i with
      | none => []
      | some p => pageWidgetFields (i + 1 + k) p := by
  induction ps generalizing k with
  | nil => simp [extractFromPages]
  | cons p ps ih =>
    rw [extractFromPages, List.length_cons, List.range_succ_eq_map,
      List.flatMap_cons, List.flatMap_map]
    congr 1
    · simp only [List.get?_cons_zero]
      congr 1
      omega
    · rw [ih (k + 1)]
      congr 1
      funext i
      simp only [List.get?_cons_succ]
      cases ps.get? i with
      | none => rfl
      | some q =>
        show pageWidgetFields (i + 1 + (k + 1)) q = pageWidgetFields (i + 1 + 1 + k) q
        congr 1
        omega

/-- C8 (confirmed).  The extractor is deterministic — identical parsed documents
yield element-wise identical field lists — and its output order is exactly the
spec's promised order: pages in 1-indexed order, and within each page the widget
annotations in array order. -/
theorem c8_extractor_deterministic_page_major (d1 d2 : PdfDoc) (h : d1 = d2) :
    extractFormFields d1 = extractFormFields d2 ∧
    extractFormFields d1 = specFieldOrder d1 := by
  subst h
  refine ⟨rfl, ?_⟩
  have hs := extractFromPages_spec d1.pages 0
  simpa [extractFormFields, specFieldOrder] using hs

/-- C8 (witness): the theorem applied to the two-page sample document. -/
theorem c8_extractor_deterministic_page_major_witness :
    extractFormFields sampleDoc = extractFormFields sampleDoc ∧
    extractFormFields sampleDoc = specFieldOrder sampleDoc :=
  c8_extractor_deterministic_page_major sampleDoc sampleDoc rfl

/-- C9 (counterexample).  The overlay scale divides by the hard-coded constant 595,
not by the page's nominal width: on a US-Letter page (612 units wide) rendered at
scale 1, a field whose rectangle spans the full page width is laid out with rendered
width 612 · (612/595) — **not** the raster width. -/
theorem c9_counterexample :
    ({ left := 0, top := 700, right := 612, bottom := 680 } : FieldRect).right -
        ({ left := 0, top := 700, right := 612, bottom := 680 } : FieldRect).left =
      letterPage.width ∧
    (overlayBox (renderedCanvasSize letterPage 1).1 (renderedCanvasSize letterPage 1).2
        { left := 0, top := 700, right := 612, bottom := 680 }).width ≠
      (renderedCanvasSize letterPage 1).1 := by
  constructor
  · norm_num [letterPage]
  · norm_num [overlayBox, renderedCanvasSize, letterPage]

/-- C9 (amended).  The renderer does apply one single scale factor to both axes and
does invert the vertical axis — but that factor is `canvasWidth / 595`, with 595 a
hard-coded approximation of the page width, not the page's actual nominal width.
Consequently a full-page-width field maps to a rendered width equal to the raster
width exactly for pages whose nominal width is 595 units. -/
theorem c9_uniform_scale_and_flip (cw ch : ℚ) (r : FieldRect) :
    (overlayBox cw ch r).width = (r.right - r.left) * (cw / 595) ∧
    (overlayBox cw ch r).height = (r.top - r.bottom) * (cw / 595) ∧
    (overlayBox cw ch r).left = r.left * (cw / 595) ∧
    (overlayBox cw ch r).top =
      (ch - r.top * (cw / 595)) - (r.top - r.bottom) * (cw / 595) ∧
    (∀ (p : PdfPage) (sc : ℚ), p.width = 595 → r.left = 0 → r.right = p.width →
      (overlayBox (renderedCanvasSize p sc).1 (renderedCanvasSize p sc).2 r).width =
        (renderedCanvasSize p sc).1) := by
  refine ⟨rfl, rfl, rfl, rfl, ?_⟩
  intro p sc hw h0 hr
  simp only [overlayBox, renderedCanvasSize, hw, h0, hr]
  field_simp

/-- C9 (witness): the amended theorem applied to an A4 page (nominal width 595)
rendered at scale 2 with a full-width field. -/
theorem c9_uniform_scale_and_flip_witness :
    (overlayBox (renderedCanvasSize a4Page 2).1 (renderedCanvasSize a4Page 2).2
        { left := 0, top := 700, right := 595, bottom := 680 }).width =
      (renderedCanvasSize a4Page 2).1 :=
  (c9_uniform_scale_and_flip (renderedCanvasSize a4Page 2).1
    (renderedCanvasSize a4Page 2).2
    { left := 0, top := 700, right := 595, bottom := 680 }).2.2.2.2 a4Page 2
    rfl rfl rfl

end FormPlay
